import Mathlib

/-
  Verification development for the MemStax memory manager (MemStax.h).

  The C++ source is shallowly embedded: each class becomes a structure holding
  the observable members, each member function becomes a pure Lean function
  threading that structure (plus the pieces of the outside world it touches:
  the contents of the trace file on disk, the static counter members, the
  result of the underlying system allocator).  size_t / uint32_t values are
  modelled as Nat; the only machine-arithmetic operations the source performs
  on them that can wrap are the static-counter updates in
  MemCallback::CallbackFunc, which are reduced modulo 2^32 / 2^64 explicitly.
-/

namespace Stax

/-- Error taxonomy of the source, enum MEMERR (MemStax.h lines 30-50). -/
inductive MEMERR where
  | NO_ERR
  | UNKNOWN
  | OUT_OF_MEM
  | INVALID_MEM
  | CORRUPT_MEM
  | DOUBLE_ALLOC
  | UNINITALIZED
  | INVALID_FUNCTION_PARAMETER
  | INVALID_FILE
deriving DecidableEq

/-- Event kinds of the source, enum MEMCALL (MemStax.h lines 66-72). -/
inductive MEMCALL where
  | ALLOC
  | DEALLOC
  | MEM_ERR
  | INVALID_MEM
deriving DecidableEq

/--
State of a MemTrace instance together with the backing file it manages.
traceLog, filePath (tracked as the Boolean pathEmpty, the only property the
source ever inspects) and the traceFunc pointer (tracked as hasTraceFunc; the
behaviour modelled is the default renderer PrintMessage) are the members of
the C++ class; fileOpen models traceFile.is_open() and fileLines the contents
of the file on disk, one written line per entry.
-/
structure MemTrace where
  traceLog : Bool
  hasTraceFunc : Bool
  pathEmpty : Bool
  fileOpen : Bool
  fileLines : List String
deriving DecidableEq

/-- Closing an fstream: the handle stops being open (closing a stream that is
not open only raises failbit, which the source never inspects). -/
def fsClose (t : MemTrace) : MemTrace :=
  { t with fileOpen := false }

/--
Opening the trace file with ios::out | ios::trunc.  Per the C++ standard,
open on a stream that is already open fails (failbit) and leaves the stream
and the file untouched; otherwise, when the operating system can open the
path (osOk), the file is truncated and the handle becomes open.
-/
def fsOpenTrunc (osOk : Bool) (t : MemTrace) : MemTrace :=
  if t.fileOpen then t
  else if osOk then { t with fileOpen := true, fileLines := [] }
  else t

/-- Opening the trace file with ios::out | ios::app: same rules as
fsOpenTrunc except the contents are kept. -/
def fsOpenApp (osOk : Bool) (t : MemTrace) : MemTrace :=
  if t.fileOpen then t
  else if osOk then { t with fileOpen := true }
  else t

/--
MemTrace::ClearFile (MemStax.h lines 228-256), translated clause by clause.
Note the source guard at line 237 reads if(!traceFile.is_open()) before the
close() call, so the close happens exactly when the handle is NOT open.
-/
def MemTrace.ClearFile (osOk : Bool) (t : MemTrace) : MEMERR × MemTrace :=
  if t.pathEmpty then (MEMERR.INVALID_FILE, t)
  else
    let t1 := if !t.fileOpen then fsClose t else t
    let t2 := fsOpenTrunc osOk t1
    if !t2.fileOpen then (MEMERR.INVALID_FILE, t2)
    else
      let t3 := fsClose t2
      let t4 := fsOpenApp osOk t3
      if !t4.fileOpen then (MEMERR.INVALID_FILE, t4)
      else (MEMERR.NO_ERR, t4)

/--
MemTrace::PrintMessage, the default renderer (MemStax.h lines 307-323):
writes the message and a newline to the file when a handle is given,
to the console otherwise, and always returns NO_ERR.  The file argument is
the line list behind the handle, none meaning nullptr.
-/
def PrintMessage (msg : String) (file : Option (List String)) :
    MEMERR × Option (List String) :=
  match file with
  | none => (MEMERR.NO_ERR, none)
  | some lines => (MEMERR.NO_ERR, some (lines ++ [msg]))

/-- MemTrace::LogMessage (MemStax.h lines 200-218) with the default
renderer. -/
def MemTrace.LogMessage (msg : String) (t : MemTrace) : MEMERR × MemTrace :=
  if !t.traceLog then (MEMERR.UNINITALIZED, t)
  else if t.fileOpen then
    match PrintMessage msg (some t.fileLines) with
    | (e, some newLines) => (e, { t with fileLines := newLines })
    | (e, none) => (e, t)
  else
    ((PrintMessage msg none).1, t)

/--
The MemTrace constructor (MemStax.h lines 113-170).  disk is the prior
contents of the file at the given path; osOk tells whether the operating
system can open that path.  The returned MEMERR is the final value of the
caller's error cell: the source writes INVALID_FUNCTION_PARAMETER or
INVALID_FILE into it along the way, but the write at lines 166-169 runs
unconditionally on every path that reaches the end of the body, so the final
value on those paths is always NO_ERR.
-/
def MemTrace.construct (pathEmpty clearContents hasTraceFunc osOk : Bool)
    (disk : List String) : MemTrace × MEMERR :=
  let t : MemTrace :=
    { traceLog := true, hasTraceFunc := hasTraceFunc, pathEmpty := pathEmpty,
      fileOpen := false, fileLines := disk }
  if pathEmpty then (t, MEMERR.NO_ERR)
  else
    let t1 := if clearContents then (MemTrace.ClearFile osOk t).2
              else fsOpenApp osOk t
    let t2 := if !t1.fileOpen then { t1 with traceLog := false } else t1
    (t2, MEMERR.NO_ERR)

/--
The static data members of MemCallback (MemStax.h lines 481-483):
static inline uint32_t allocs, static inline uint32_t deallocs,
static inline size_t memInUse.  Being static they are shared by every
instance of the class; they are therefore modelled as a separate state
record threaded through the calls rather than as instance fields.
-/
structure Globals where
  allocs : Nat
  deallocs : Nat
  memInUse : Nat
deriving DecidableEq

/-- Instance state of MemCallback: the callbackInit flag and the traceClass
pointer (the counters are static, see Globals). -/
structure MemCallback where
  callbackInit : Bool
  traceClass : Option MemTrace
deriving DecidableEq

/-- Result of one dispatch through MemCallback. -/
structure DispatchResult where
  err : MEMERR
  globals : Globals
  traceClass : Option MemTrace
deriving DecidableEq

/--
MemCallback::CallbackFunc (MemStax.h lines 442-480), the default callback:
updates the static counters (uint32_t arithmetic modulo 2^32, size_t modulo
2^64), builds the trace message, forwards it to the trace class when one is
attached (discarding the LogMessage result, as the source does), and returns
NO_ERR.
-/
def CallbackFunc (msg : MEMCALL) (memSize : Nat) (traceCall : Option MemTrace)
    (g : Globals) : DispatchResult :=
  let step : Globals × String :=
    match msg with
    | MEMCALL.ALLOC =>
        ({ g with
            allocs := (g.allocs + 1) % 2 ^ 32,
            memInUse := (g.memInUse + memSize) % 2 ^ 64 },
         "Allocating Memory of size: " ++ toString memSize)
    | MEMCALL.DEALLOC =>
        ({ g with
            deallocs := (g.deallocs + 1) % 2 ^ 32,
            memInUse := (g.memInUse + (2 ^ 64 - memSize % 2 ^ 64)) % 2 ^ 64 },
         "Deallocating Memory of size: " ++ toString memSize)
    | MEMCALL.MEM_ERR =>
        (g, "Error Allocating Memory of size: " ++ toString memSize)
    | MEMCALL.INVALID_MEM =>
        (g, "Error Accessing Memory of size: " ++ toString memSize)
  let traceOut : Option MemTrace :=
    match traceCall with
    | some t => some (MemTrace.LogMessage step.2 t).2
    | none => none
  ⟨MEMERR.NO_ERR, step.1, traceOut⟩

/-- MemCallback::PerformCallback (MemStax.h lines 410-418) with the default
CallbackFunc. -/
def MemCallback.PerformCallback (c : MemCallback) (msg : MEMCALL)
    (memSize : Nat) (g : Globals) : DispatchResult :=
  if c.callbackInit then CallbackFunc msg memSize c.traceClass g
  else ⟨MEMERR.UNINITALIZED, g, c.traceClass⟩

/-- Reading the allocs counter through an instance: MemCallback::allocs is a
static member (MemStax.h line 481), so the value read through any instance is
the shared static state, independent of the instance. -/
def MemCallback.allocs (_c : MemCallback) (g : Globals) : Nat := g.allocs

/-- Reading the deallocs counter through an instance (static member,
MemStax.h line 482). -/
def MemCallback.deallocs (_c : MemCallback) (g : Globals) : Nat := g.deallocs

/-- Reading the memInUse counter through an instance (static member,
MemStax.h line 483). -/
def MemCallback.memInUse (_c : MemCallback) (g : Globals) : Nat := g.memInUse

/--
State of a MemHeap instance (MemStax.h lines 752-761).  The callback member
is modelled as the flag hasCallback plus, at each call site, a function
cb : MEMCALL -> Nat -> MEMERR giving the result of
callback->PerformCallback for each event; pageSize is the used-bytes offset
into the current page (name kept from the source), maxPageSize the capacity
of every page.  The pages array itself holds raw addresses; what the logic
observes of it is numOfPages and, per allocation, the page index and byte
offset at which placement new runs, which the operations below report.
-/
structure MemHeap where
  heapInitalized : Bool
  memFlags : Nat
  hasCallback : Bool
  allignment : Nat
  pageSize : Nat
  numOfPages : Nat
  maxPages : Nat
  maxPageSize : Nat
deriving DecidableEq

/-- sizeof(size_t) on the target platform, the size the source reports to the
callback in AllocatePage and AllocatePagePtrs via sizeof(maxPageSize) and
sizeof(numOfPages). -/
def sizeofSizeT : Nat := 8

/--
MemHeap::AllocatePage (MemStax.h lines 763-835).  sysOk tells whether the
underlying new uint8_t[maxPageSize] succeeds; when it throws bad_alloc the
source reports MEM_ERR to the callback, returns the callback's error without
undoing the increment when that error is not NO_ERR, and otherwise
decrements numOfPages back and returns OUT_OF_MEM.
-/
def MemHeap.AllocatePage (sysOk : Bool) (cb : MEMCALL → Nat → MEMERR)
    (h : MemHeap) : MEMERR × MemHeap :=
  if h.numOfPages + 1 > h.maxPages then (MEMERR.OUT_OF_MEM, h)
  else
    let h1 := { h with numOfPages := h.numOfPages + 1 }
    if sysOk then (MEMERR.NO_ERR, h1)
    else
      let e := if h1.hasCallback then cb MEMCALL.MEM_ERR sizeofSizeT
               else MEMERR.NO_ERR
      if e ≠ MEMERR.NO_ERR then (e, h1)
      else (MEMERR.OUT_OF_MEM, { h1 with numOfPages := h1.numOfPages - 1 })

/--
MemHeap::AllocatePagePtrs (MemStax.h lines 837-893).  sysOk tells whether
new uint8_t*[numOfPages] succeeds; the failure branch modelled is the
bad_alloc one.
-/
def MemHeap.AllocatePagePtrs (sysOk : Bool) (cb : MEMCALL → Nat → MEMERR)
    (h : MemHeap) : MEMERR × MemHeap :=
  if sysOk then (MEMERR.NO_ERR, h)
  else
    let e := if h.hasCallback then cb MEMCALL.MEM_ERR sizeofSizeT
             else MEMERR.NO_ERR
    if e ≠ MEMERR.NO_ERR then (e, h)
    else (MEMERR.OUT_OF_MEM, h)

/--
MemHeap::InitalizeHeapMem (MemStax.h lines 519-562).  Neither the
constructor nor this function resets numOfPages or maxPages before
AllocatePage runs, so the pre-call values of those members (indeterminate
after construction) flow into the page-budget check; they are whatever the
incoming state carries.  hasCb tells whether a non-null callbackClass was
passed.
-/
def MemHeap.InitalizeHeapMem (in_pageSize in_numOfPages in_allignment : Nat)
    (hasCb : Bool) (sysOk : Bool) (cb : MEMCALL → Nat → MEMERR)
    (h : MemHeap) : MEMERR × MemHeap :=
  let r1 := h.AllocatePagePtrs sysOk cb
  if r1.1 ≠ MEMERR.NO_ERR then r1
  else
    let r2 := r1.2.AllocatePage sysOk cb
    if r2.1 ≠ MEMERR.NO_ERR then r2
    else
      (MEMERR.NO_ERR,
       { r2.2 with
          heapInitalized := true, maxPageSize := in_pageSize,
          maxPages := in_numOfPages, allignment := in_allignment,
          pageSize := 0,
          hasCallback := r2.2.hasCallback || hasCb })

/-- MemHeap::TerminateHeapMem (MemStax.h lines 564-573). -/
def MemHeap.TerminateHeapMem (h : MemHeap) : MEMERR × MemHeap :=
  (MEMERR.NO_ERR, { h with heapInitalized := false, hasCallback := false })

/--
The MemHeap constructor (MemStax.h lines 498-502): it initializes only
heapInitalized, memFlags and callback; allignment, pageSize, numOfPages,
maxPages and maxPageSize are left indeterminate, supplied here by the
argument g.
-/
def MemHeap.construct (g : MemHeap) : MemHeap :=
  { g with heapInitalized := false, memFlags := 0, hasCallback := false }

/-- The padded size Allocate reserves (MemStax.h line 611):
sizeof(T) + (sizeof(T) % allignment), exactly as written in the source. -/
def allocPaddedSize (szT align : Nat) : Nat := szT + szT % align

/-- Spec-side definition, for comparison only: the padded size as the spec
words it, sizeof(T) rounded up to the next multiple of the alignment. -/
def paddedSizeSpec (szT align : Nat) : Nat := ((szT + align - 1) / align) * align

/-- Outcome of the placement-new T() in Allocate: the default constructor
either completes, throws bad_alloc, or throws some other exception. -/
inductive CtorOutcome where
  | ok
  | throwsBadAlloc
  | throwsOther
deriving DecidableEq

/--
Result of one MemHeap::Allocate call: the returned error, the heap state
after the call, the (page index, byte offset) at which placement new ran
when it did (pages[numOfPages - 1] + pageSize at that moment), and whether
the caller's slot p_Obj is null afterwards.
-/
structure AllocResult where
  err : MEMERR
  heap : MemHeap
  placed : Option (Nat × Nat)
  slotNull : Bool
deriving DecidableEq

/--
MemHeap::Allocate (MemStax.h lines 607-705), translated clause by clause:
the padded size is computed, then the page pre-check at line 614 compares
objPageSize < pageSize and, when true, calls AllocatePage discarding its
result; then the double-allocation guard, then placement new at
pages[numOfPages - 1] + pageSize with pageSize advanced on success, the
exception translations, and the debug callback whose failure is returned.
szT is sizeof(T), slotNull whether p_Obj is null on entry, sysOk whether the
system allocation inside a triggered AllocatePage succeeds, ctorRun the
outcome of T().
-/
def MemHeap.Allocate (szT : Nat) (slotNull : Bool) (sysOk : Bool)
    (ctorRun : CtorOutcome) (cb : MEMCALL → Nat → MEMERR)
    (h : MemHeap) : AllocResult :=
  let objPageSize := allocPaddedSize szT h.allignment
  let h1 := if objPageSize < h.pageSize then (h.AllocatePage sysOk cb).2 else h
  if h1.memFlags &&& 2 = 0 ∧ slotNull = false then
    ⟨MEMERR.DOUBLE_ALLOC, h1, none, slotNull⟩
  else
    match ctorRun with
    | CtorOutcome.ok =>
        let pagePos := (h1.numOfPages - 1, h1.pageSize)
        let h2 := { h1 with pageSize := h1.pageSize + objPageSize }
        if h2.memFlags &&& 1 = 0 ∧ h2.hasCallback = true then
          let e := cb MEMCALL.ALLOC szT
          if e ≠ MEMERR.NO_ERR then ⟨e, h2, some pagePos, false⟩
          else ⟨MEMERR.NO_ERR, h2, some pagePos, false⟩
        else ⟨MEMERR.NO_ERR, h2, some pagePos, false⟩
    | CtorOutcome.throwsBadAlloc =>
        let e := if h1.hasCallback then cb MEMCALL.MEM_ERR szT
                 else MEMERR.NO_ERR
        if e ≠ MEMERR.NO_ERR then ⟨e, h1, none, slotNull⟩
        else ⟨MEMERR.OUT_OF_MEM, h1, none, slotNull⟩
    | CtorOutcome.throwsOther =>
        let e := if h1.hasCallback then cb MEMCALL.MEM_ERR szT
                 else MEMERR.NO_ERR
        if e ≠ MEMERR.NO_ERR then ⟨e, h1, none, slotNull⟩
        else ⟨MEMERR.UNKNOWN, h1, none, slotNull⟩

/--
Result of one MemHeap::Deallocate call: returned error, whether the caller's
slot is null afterwards, heap state (never modified by the source), and the
list of PerformCallback invocations made.
-/
structure DeallocResult where
  err : MEMERR
  slotNull : Bool
  heap : MemHeap
  events : List (MEMCALL × Nat)
deriving DecidableEq

/--
MemHeap::Deallocate (MemStax.h lines 709-749): on a null slot, the
invalid-access event is forwarded (its failure returned) and INVALID_MEM
returned; on a non-null slot the deallocate event is forwarded when debug
messages are on and a callback is attached, its result stored in the local
error variable which is never read afterwards, the object deleted, the slot
nulled, and NO_ERR returned.
-/
def MemHeap.Deallocate (szT : Nat) (slotNull : Bool)
    (cb : MEMCALL → Nat → MEMERR) (h : MemHeap) : DeallocResult :=
  if slotNull then
    let e := if h.hasCallback then cb MEMCALL.INVALID_MEM szT
             else MEMERR.NO_ERR
    let evs := if h.hasCallback then [(MEMCALL.INVALID_MEM, szT)] else []
    if e ≠ MEMERR.NO_ERR then ⟨e, true, h, evs⟩
    else ⟨MEMERR.INVALID_MEM, true, h, evs⟩
  else
    let evs := if h.memFlags &&& 1 = 0 ∧ h.hasCallback = true
               then [(MEMCALL.DEALLOC, szT)] else []
    ⟨MEMERR.NO_ERR, true, h, evs⟩

/-- A callback that always reports success, standing for heaps where no
callback is consulted. -/
def cb0 : MEMCALL → Nat → MEMERR := fun _ _ => MEMERR.NO_ERR

/-- One concrete choice for the members the MemHeap constructor leaves
indeterminate: numOfPages 0 and maxPages 1, so that the AllocatePage call
inside InitalizeHeapMem passes its budget check. -/
def indet0 : MemHeap :=
  ⟨false, 0, false, 0, 0, 0, 1, 0⟩

/-- A freshly initialized arena with the given page capacity, page budget
and alignment, no callback attached. -/
def initHeap (cap maxP align : Nat) : MemHeap :=
  ((MemHeap.construct indet0).InitalizeHeapMem cap maxP align false true cb0).2

/-- One Allocate step with a null destination slot, a successful system
allocator and a completing constructor. -/
def allocStep (szT : Nat) (h : MemHeap) : AllocResult :=
  h.Allocate szT true true CtorOutcome.ok cb0

/-- Arena of capacity 64, page budget 2, alignment 8, after one allocation
of a 40-byte object: the used offset is 40 and one page exists. -/
def heapC1 : MemHeap := (allocStep 40 (initHeap 64 2 8)).heap

/--
Claim C1: for every Allocate call on an initialized arena a new page is
appended exactly when the padded size exceeds the remaining capacity of the
current page and the page count is below maxPages, and no page is created
when the object fits.  This fails on the code: on the arena with capacity
64 and used offset 40, an 8-byte object (padded size 8) fits in the 24
remaining bytes, yet the call appends a second page, because the source
check at line 614 compares the padded size against the used offset
(objPageSize < pageSize) instead of against the remaining capacity.
-/
theorem allocate_appends_page_though_object_fits :
    heapC1.pageSize = 40 ∧ heapC1.maxPageSize = 64 ∧
    heapC1.numOfPages = 1 ∧ heapC1.maxPages = 2 ∧
    allocPaddedSize 8 heapC1.allignment ≤ heapC1.maxPageSize - heapC1.pageSize ∧
    (allocStep 8 heapC1).heap.numOfPages = 2 := by
  decide

/-- Arena of capacity 8, page budget 1, alignment 8, after one allocation of
an 8-byte object: the sole page is exactly full. -/
def heapC2 : MemHeap := (allocStep 8 (initHeap 8 1 8)).heap

/--
Claim C2: when the current page cannot fit the padded object and the arena
already holds maxPages pages, Allocate fails with OUT_OF_MEM and no object
is placed.  This fails on the code: with the sole page of the one-page
arena exactly full, allocating another 8-byte object returns NO_ERR and
constructs the object at offset 8, past the 8-byte capacity; a direct
AllocatePage call on this state does return OUT_OF_MEM, but Allocate's
inverted fit check never requests the page (and line 618 would discard the
error if it did).
-/
theorem allocate_full_arena_places_out_of_bounds :
    heapC2.pageSize = 8 ∧ heapC2.maxPageSize = 8 ∧
    heapC2.numOfPages = 1 ∧ heapC2.maxPages = 1 ∧
    (heapC2.AllocatePage true cb0).1 = MEMERR.OUT_OF_MEM ∧
    (allocStep 8 heapC2).err = MEMERR.NO_ERR ∧
    (allocStep 8 heapC2).placed = some (0, 8) := by
  decide

/-- A MemHeap as the constructor leaves it, never initialized, with one
concrete choice of the indeterminate members. -/
def heapC3 : MemHeap :=
  MemHeap.construct ⟨true, 255, true, 8, 3, 5, 7, 64⟩

/--
Claim C3: calling Deallocate while the arena is uninitialized fails with
UNINITALIZED and does not act.  This fails on the code: Deallocate (and
Allocate) never read heapInitalized; on a never-initialized heap with a
non-null handle, Deallocate deletes the object, nulls the caller's handle
and returns NO_ERR.
-/
theorem deallocate_on_uninit_heap_returns_no_err :
    heapC3.heapInitalized = false ∧
    (heapC3.Deallocate 4 false cb0).err = MEMERR.NO_ERR ∧
    (heapC3.Deallocate 4 false cb0).err ≠ MEMERR.UNINITALIZED ∧
    (heapC3.Deallocate 4 false cb0).slotNull = true := by
  decide

/--
Claim C4: in every reachable state the used offset is at most the page
capacity and an object is only placed where offset + padded size stays
within capacity.  This fails on the code: after Initialize(8, 10, 8) and
one 8-byte allocation, a second 8-byte Allocate places its object at offset
8 with 8 + 8 = 16 > 8 and leaves the used offset at 16, beyond the 8-byte
capacity, because the source never compares the offset against the
capacity and never resets it.
-/
theorem reachable_offset_exceeds_capacity :
    (allocStep 8 (allocStep 8 (initHeap 8 10 8)).heap).placed = some (0, 8) ∧
    8 + allocPaddedSize 8 8 > (initHeap 8 10 8).maxPageSize ∧
    (allocStep 8 (allocStep 8 (initHeap 8 10 8)).heap).heap.pageSize = 16 ∧
    (allocStep 8 (allocStep 8 (initHeap 8 10 8)).heap).heap.maxPageSize = 8 := by
  decide

/--
Claim C6: the padded size Allocate reserves equals sizeof(T) rounded up to
the next multiple of the alignment.  This fails on the code: for
sizeof(T) = 9 and alignment 8, the source formula sizeof(T) + sizeof(T) %
allignment reserves 10 bytes, which is not the round-up 16 and not even a
multiple of 8; the offset of an empty page advances by 10.
-/
theorem padded_size_not_rounded_up :
    allocPaddedSize 9 8 = 10 ∧ paddedSizeSpec 9 8 = 16 ∧
    allocPaddedSize 9 8 ≠ paddedSizeSpec 9 8 ∧
    allocPaddedSize 9 8 % 8 ≠ 0 ∧
    (allocStep 9 (initHeap 64 2 8)).heap.pageSize = 10 := by
  decide

/-- AllocatePage only ever changes the numOfPages member of the heap. -/
lemma allocatePage_shape (sysOk : Bool) (cb : MEMCALL → Nat → MEMERR)
    (h : MemHeap) :
    ∃ n, (h.AllocatePage sysOk cb).2 = { h with numOfPages := n } :=
  ⟨(h.AllocatePage sysOk cb).2.numOfPages, by
    simp only [MemHeap.AllocatePage]
    repeat' split
    all_goals rfl⟩

/-- Arena of capacity 64, budget 2, alignment 8, used offset 16 after two
8-byte allocations; one page exists. -/
def heapC5 : MemHeap := (allocStep 8 (allocStep 8 (initHeap 64 2 8)).heap).heap

/--
Counterexample to claim C5 as stated: an Allocate call into a non-null
slot with the override flag clear does fail with DOUBLE_ALLOC, but it does
not leave the entire arena unchanged: on the arena with used offset 16, the
page pre-check (8 < 16) runs before the double-allocation guard and appends
a second page, which remains after the failure.
-/
theorem double_alloc_mutates_arena :
    heapC5.numOfPages = 1 ∧ heapC5.memFlags &&& 2 = 0 ∧
    (heapC5.Allocate 8 false true CtorOutcome.ok cb0).err = MEMERR.DOUBLE_ALLOC ∧
    (heapC5.Allocate 8 false true CtorOutcome.ok cb0).heap.numOfPages = 2 ∧
    (heapC5.Allocate 8 false true CtorOutcome.ok cb0).heap ≠ heapC5 := by
  decide

/--
Claim C5, amended: when the destination slot is non-null and the override
flag is clear, Allocate fails with DOUBLE_ALLOC, places no object and
leaves the used offset unchanged; the arena is fully unchanged whenever the
padded size is not below the current used offset, but when it is, the page
pre-check has already run and may have appended a page.  When the override
flag is set and no callback is attached, the same call succeeds.
-/
theorem double_alloc_amended (h : MemHeap) (szT : Nat) (sysOk : Bool)
    (cb : MEMCALL → Nat → MEMERR) :
    (h.memFlags &&& 2 = 0 →
      (h.Allocate szT false sysOk CtorOutcome.ok cb).err = MEMERR.DOUBLE_ALLOC ∧
      (h.Allocate szT false sysOk CtorOutcome.ok cb).placed = none ∧
      (h.Allocate szT false sysOk CtorOutcome.ok cb).heap.pageSize = h.pageSize ∧
      (¬ allocPaddedSize szT h.allignment < h.pageSize →
        (h.Allocate szT false sysOk CtorOutcome.ok cb).heap = h)) ∧
    (h.memFlags &&& 2 ≠ 0 → h.hasCallback = false →
      (h.Allocate szT false sysOk CtorOutcome.ok cb).err = MEMERR.NO_ERR) := by
  obtain ⟨n, hn⟩ := allocatePage_shape sysOk cb h
  constructor
  · intro hflag
    by_cases hlt : allocPaddedSize szT h.allignment < h.pageSize
    · simp only [MemHeap.Allocate, if_pos hlt, hn]
      rw [if_pos (And.intro hflag (by trivial))]
      exact ⟨rfl, rfl, rfl, fun hc => absurd hlt hc⟩
    · simp only [MemHeap.Allocate, if_neg hlt]
      rw [if_pos (And.intro hflag (by trivial))]
      exact ⟨rfl, rfl, rfl, fun _ => rfl⟩
  · intro hflag hcb
    by_cases hlt : allocPaddedSize szT h.allignment < h.pageSize
    · simp only [MemHeap.Allocate, if_pos hlt, hn]
      rw [if_neg (fun hc => hflag hc.1)]
      rw [if_neg (fun hc => by simp [hcb] at hc)]
    · simp only [MemHeap.Allocate, if_neg hlt]
      rw [if_neg (fun hc => hflag hc.1)]
      rw [if_neg (fun hc => by simp [hcb] at hc)]

/-- heapC5 with the override-double-allocation flag (0x02) set. -/
def heapC5flag : MemHeap := { heapC5 with memFlags := 2 }

/-- Witness for double_alloc_amended at a concrete arena. -/
theorem double_alloc_amended_witness :
    (heapC5.Allocate 8 false true CtorOutcome.ok cb0).err = MEMERR.DOUBLE_ALLOC ∧
    (heapC5flag.Allocate 8 false true CtorOutcome.ok cb0).err = MEMERR.NO_ERR :=
  ⟨((double_alloc_amended heapC5 8 true cb0).1 (by decide)).1,
   (double_alloc_amended heapC5flag 8 true cb0).2 (by decide) (by decide)⟩

/--
Claim C7: constructing a trace with a non-empty path whose file does not
end up open disables logging and reports INVALID_FILE.  The first half
holds but the report does not: the source writes INVALID_FILE into the
error cell at line 161 and then the unconditional write at lines 166-169
(commented as running only when everything passed) overwrites it, so the
caller observes NO_ERR.  When the file does open, NO_ERR is reported as
the claim says.
-/
theorem construct_invalid_file_reports_no_err :
    (MemTrace.construct false false true false []).1.traceLog = false ∧
    (MemTrace.construct false false true false []).2 = MEMERR.NO_ERR ∧
    (MemTrace.construct false false true false []).2 ≠ MEMERR.INVALID_FILE ∧
    (MemTrace.construct false false true true []).1.traceLog = true ∧
    (MemTrace.construct false false true true []).2 = MEMERR.NO_ERR := by
  decide

/-- A trace holding an open handle on a file that already contains one
line, as left by the constructor opening in append mode. -/
def traceC8 : MemTrace := (MemTrace.construct false false true true ["old"]).1

/--
Claim C8: ClearFile closes the handle if open, truncates, and reopens so
that ClearFile followed by LogMessage "X" leaves exactly the line "X".
This fails on the code: the guard at line 237 reads if(!traceFile.is_open())
before close(), the inverse of its own comment, so on an open handle the
close is skipped, the truncating reopen fails on the already-open stream
(leaving the old contents), the open handle then passes both is_open
checks and ClearFile returns NO_ERR without ever erasing the file: the file
afterwards contains the old line followed by "X".
-/
theorem clearfile_on_open_file_keeps_contents :
    traceC8.fileOpen = true ∧ traceC8.fileLines = ["old"] ∧
    (traceC8.ClearFile true).1 = MEMERR.NO_ERR ∧
    ((traceC8.ClearFile true).2.LogMessage "X").2.fileLines = ["old", "X"] ∧
    ((traceC8.ClearFile true).2.LogMessage "X").2.fileLines ≠ ["X"] := by
  decide

/-- A sink with no trace attached. -/
def sinkA : MemCallback := ⟨true, none⟩

/-- A console-only trace. -/
def consoleTrace : MemTrace := ⟨true, true, true, false, []⟩

/-- A second, distinct sink, with a console trace attached. -/
def sinkB : MemCallback := ⟨true, some consoleTrace⟩

/-- The static counters all at zero. -/
def g0 : Globals := ⟨0, 0, 0⟩

/--
Counterexample to claim C9 as stated: dispatching an allocate event of
size 4 through sinkA changes the allocation count and bytes-in-use that the
distinct instance sinkB reads, because the counters are static members
shared by every instance, not per-sink state.
-/
theorem sink_counters_not_independent :
    sinkA ≠ sinkB ∧
    MemCallback.allocs sinkB g0 = 0 ∧
    MemCallback.allocs sinkB (sinkA.PerformCallback MEMCALL.ALLOC 4 g0).globals = 1 ∧
    MemCallback.memInUse sinkB (sinkA.PerformCallback MEMCALL.ALLOC 4 g0).globals = 4 := by
  decide

/--
Claim C9, amended: the counters are static members shared by every sink
instance; dispatching an allocate event through any initialized sink
increments the single process-wide allocation count and adds the size to
bytes-in-use as observed through every sink, and leaves the deallocation
count unchanged.
-/
theorem sink_counters_shared (a b : MemCallback) (g : Globals) (sz : Nat)
    (ha : a.callbackInit = true) :
    MemCallback.allocs b (a.PerformCallback MEMCALL.ALLOC sz g).globals
      = (g.allocs + 1) % 2 ^ 32 ∧
    MemCallback.memInUse b (a.PerformCallback MEMCALL.ALLOC sz g).globals
      = (g.memInUse + sz) % 2 ^ 64 ∧
    MemCallback.deallocs b (a.PerformCallback MEMCALL.ALLOC sz g).globals
      = g.deallocs := by
  simp [MemCallback.PerformCallback, ha, CallbackFunc,
    MemCallback.allocs, MemCallback.memInUse, MemCallback.deallocs]

/-- Witness for sink_counters_shared at concrete sinks and counters. -/
theorem sink_counters_shared_witness :
    MemCallback.allocs sinkB (sinkA.PerformCallback MEMCALL.ALLOC 4 g0).globals
      = (g0.allocs + 1) % 2 ^ 32 ∧
    MemCallback.memInUse sinkB (sinkA.PerformCallback MEMCALL.ALLOC 4 g0).globals
      = (g0.memInUse + 4) % 2 ^ 64 ∧
    MemCallback.deallocs sinkB (sinkA.PerformCallback MEMCALL.ALLOC 4 g0).globals
      = g0.deallocs :=
  sink_counters_shared sinkA sinkB g0 4 (by decide)

/--
Claim C10: on a non-null handle, Deallocate destroys the object, nulls the
caller's handle and returns NO_ERR even when the forwarded deallocate event
returns an error: the source stores the callback result in a local that is
never read (lines 739-748).  In contrast, Allocate returns the result of
its allocate-event forwarding to the caller (lines 692-702), so there the
forwarding outcome is whatever the callback returns.
-/
theorem deallocate_discards_forwarding_error
    (h : MemHeap) (szT : Nat) (cb : MEMCALL → Nat → MEMERR) (sysOk : Bool)
    (hdbg : h.memFlags &&& 1 = 0) (hcb : h.hasCallback = true) :
    (h.Deallocate szT false cb).err = MEMERR.NO_ERR ∧
    (h.Deallocate szT false cb).slotNull = true ∧
    (h.Deallocate szT false cb).heap = h ∧
    (h.Deallocate szT false cb).events = [(MEMCALL.DEALLOC, szT)] ∧
    (h.Allocate szT true sysOk CtorOutcome.ok cb).err = cb MEMCALL.ALLOC szT := by
  obtain ⟨n, hn⟩ := allocatePage_shape sysOk cb h
  refine ⟨?_, ?_, ?_, ?_, ?_⟩
  · simp [MemHeap.Deallocate]
  · simp [MemHeap.Deallocate]
  · simp [MemHeap.Deallocate]
  · simp [MemHeap.Deallocate, hdbg, hcb]
  · by_cases hlt : allocPaddedSize szT h.allignment < h.pageSize
    · simp only [MemHeap.Allocate, if_pos hlt, hn]
      rw [if_neg (fun hc => by simpa using hc.2)]
      rw [if_pos ⟨hdbg, hcb⟩]
      by_cases hce : cb MEMCALL.ALLOC szT ≠ MEMERR.NO_ERR
      · rw [if_pos hce]
      · rw [if_neg hce]
        simp only [ne_eq, not_not] at hce
        exact hce.symm
    · simp only [MemHeap.Allocate, if_neg hlt]
      rw [if_neg (fun hc => by simpa using hc.2)]
      rw [if_pos ⟨hdbg, hcb⟩]
      by_cases hce : cb MEMCALL.ALLOC szT ≠ MEMERR.NO_ERR
      · rw [if_pos hce]
      · rw [if_neg hce]
        simp only [ne_eq, not_not] at hce
        exact hce.symm

/-- An initialized arena with a callback attached. -/
def heapC10 : MemHeap := { initHeap 64 2 8 with hasCallback := true }

/-- A callback that always reports an UNKNOWN error. -/
def cbErr : MEMCALL → Nat → MEMERR := fun _ _ => MEMERR.UNKNOWN

/-- Witness for deallocate_discards_forwarding_error: the callback fails
with UNKNOWN, yet Deallocate returns NO_ERR, while Allocate surfaces the
UNKNOWN. -/
theorem deallocate_discards_forwarding_error_witness :
    (heapC10.Deallocate 4 false cbErr).err = MEMERR.NO_ERR ∧
    (heapC10.Deallocate 4 false cbErr).slotNull = true ∧
    (heapC10.Deallocate 4 false cbErr).heap = heapC10 ∧
    (heapC10.Deallocate 4 false cbErr).events = [(MEMCALL.DEALLOC, 4)] ∧
    (heapC10.Allocate 4 true true CtorOutcome.ok cbErr).err = cbErr MEMCALL.ALLOC 4 :=
  deallocate_discards_forwarding_error heapC10 4 cbErr true (by decide) (by decide)

end Stax
